import Mathlib

/-!
# Verification of the sandboxed file-system tool server

Shallow embedding of `src/main.py` (class `FileSystemServer`): the path
validation `_validate_path`, the five tool handlers (`_list_files`,
`_read_file`, `_write_file`, `_create_directory`, `_delete_file`) and the
dispatch function `call_tool`.

Modelling conventions:
* An absolute filesystem path is a `List String` of segments
  (`["sandbox", "a.txt"]` stands for `/sandbox/a.txt`); its string form
  (Python `str(Path)`) is rebuilt by `pathStr`.
* `Path.resolve()` is modelled lexically (`.`/`..`/empty segments are
  normalised); symbolic links are outside the model (the filesystem model
  below contains none).
* The filesystem is a finite association list from absolute canonical
  paths to nodes: regular file with its text content, directory, or any
  other object kind. The sandbox root itself is created at startup
  (`self.sandbox_path.mkdir(exist_ok=True)`), so an initial state contains
  the root as a directory entry.
* Python exceptions are the `Except String` error channel, carrying
  `str(e)`; for OS-level faults whose exact message text the embedding
  cannot know, a stand-in message is used (no claim inspects those texts).
* A `TextContent(type="text", text=s)` is modelled as the string `s`, so a
  handler result is `FS × List String`.
-/

/-- Python truth of `s.startswith(pre)`: raw string prefix, char by char.
This is exactly the containment test of `_validate_path` (line 148). -/
def strStartsWith (s pre : String) : Bool :=
  pre.data.isPrefixOf s.data

/-- Split a path string on the separator, dropping empty and `.` segments
(as `pathlib` does when parsing: `Path("a//./b").parts = ("a","b")`),
keeping `..` segments for `resolve` to act on. -/
def splitSegsAux (cur : List Char) (acc : List String) : List Char → List String
  | [] =>
    (if cur.isEmpty ∨ cur = ['.'] then acc else ⟨cur.reverse⟩ :: acc).reverse
  | c :: rest =>
    if c = '/' then
      splitSegsAux [] (if cur.isEmpty ∨ cur = ['.'] then acc else ⟨cur.reverse⟩ :: acc) rest
    else
      splitSegsAux (c :: cur) acc rest

def splitSegs (s : String) : List String :=
  splitSegsAux [] [] s.data

/-- Python `s` starts with the separator, i.e. joining it onto the sandbox
root discards the root (`Path("/sandbox") / "/etc" = Path("/etc")`). -/
def isAbsStr (s : String) : Bool :=
  match s.data with
  | [] => false
  | c :: _ => c = '/'

/-- `self.sandbox_path / path` of line 145: pathlib join. -/
def joinSegs (root : List String) (p : String) : List String :=
  if isAbsStr p then splitSegs p else root ++ splitSegs p

/-- Lexical core of `Path.resolve()`: process segments left to right, `..`
removes the previously accepted segment (at the filesystem root, `..`
stays at the root). `acc` holds the accepted segments in reverse. -/
def resolveAux (acc : List String) : List String → List String
  | [] => acc.reverse
  | s :: rest => if s = ".." then resolveAux (acc.drop 1) rest else resolveAux (s :: acc) rest

/-- `(self.sandbox_path / path).resolve()` of line 145, for a canonical
(already resolved) sandbox root and a symlink-free filesystem. -/
def resolvePath (root : List String) (p : String) : List String :=
  resolveAux [] (joinSegs root p)

def joinSlash : List String → String
  | [] => ""
  | [s] => s
  | s :: rest => s ++ "/" ++ joinSlash rest

/-- `str(path)` for an absolute path: `/` followed by the segments. -/
def pathStr (segs : List String) : String :=
  "/" ++ joinSlash segs

/-- `_validate_path` (lines 142-151): resolve the joined path, then accept
iff `str(target_path).startswith(str(self.sandbox_path))`; otherwise raise
`ValueError(f"Path '{path}' is outside the sandbox directory")`. -/
def validatePath (root : List String) (p : String) : Except String (List String) :=
  let target := resolvePath root p
  if strStartsWith (pathStr target) (pathStr root) then
    .ok target
  else
    .error ("Path '" ++ p ++ "' is outside the sandbox directory")

/-- Modelled from the spec (§3, §4.1 step 3): path-segment containment —
the candidate equals the root or has the root as a strict path-segment
prefix (a directory boundary). Used only to compare the code's check
against the specified one. -/
def specSegmentContained (root target : List String) : Bool :=
  root.isPrefixOf target

/-! ## Filesystem model and server state -/

/-- A filesystem object: regular file with UTF-8 text content, directory,
or any other object kind (socket, device, ...; `is_file()` and `is_dir()`
both false). -/
inductive Node where
  | file (content : String)
  | dir
  | other
deriving DecidableEq

/-- The filesystem: association list from absolute canonical paths
(segment lists) to nodes. -/
def FS := List (List String × Node)
deriving DecidableEq

/-- The server: resolved sandbox root plus the policy fields of `Config`
used by the handlers (`name`/`version`/`description` never influence
handler behaviour and are omitted). -/
structure Server where
  root : List String
  max_file_size : Nat
  allowed_extensions : List String
  read_only : Bool

/-- Stat of a path: `None` when nothing exists there. -/
def fsGet : FS → List String → Option Node
  | [], _ => none
  | e :: rest, p => if e.1 = p then some e.2 else fsGet rest p

/-- Removal of one path (`unlink` / `rmdir`). -/
def fsRemove (fs : FS) (p : List String) : FS :=
  fs.filter (fun e => e.1 ≠ p)

/-- A directory has some strict descendant entry, i.e. `rmdir` would raise
`OSError` (directory not empty). -/
def dirHasChild (fs : FS) (p : List String) : Bool :=
  fs.any (fun e => p.isPrefixOf e.1 && p.length != e.1.length)

/-- The nonempty prefixes of a path, shortest first: the directories
`mkdir(parents=True)` walks. -/
def prefixList (p : List String) : List (List String) :=
  (List.range p.length).map (fun i => p.take (i + 1))

/-- `mkdir(parents=True, exist_ok=True)` over a prefix chain: an existing
directory is kept, a missing one is created, and a non-directory object in
the chain raises (`FileExistsError`/`NotADirectoryError`; stand-in text). -/
def ensureDirs (fs : FS) : List (List String) → Except String FS
  | [] => .ok fs
  | q :: rest =>
    match fsGet fs q with
    | some Node.dir => ensureDirs fs rest
    | some _ => .error ("exists and is not a directory: " ++ pathStr q)
    | none => ensureDirs ((q, Node.dir) :: fs) rest

/-- `target_path.write_text(content)`: overwrites a file, raises
`IsADirectoryError` on a directory (stand-in text). -/
def writeText (fs : FS) (t : List String) (c : String) : Except String FS :=
  match fsGet fs t with
  | some Node.dir => .error ("is a directory: " ++ pathStr t)
  | _ => .ok ((t, Node.file c) :: fsRemove fs t)

/-! ## File-name suffix (pathlib `Path.suffix`) -/

/-- Index of the last occurrence of a character (`str.rfind`), `none` when
absent. -/
def lastIdxOf (ch : Char) : List Char → Option Nat
  | [] => none
  | c :: cs =>
    match lastIdxOf ch cs with
    | some i => some (i + 1)
    | none => if c = ch then some 0 else none

/-- `PurePath.suffix` of a file name: `name[i:]` for `i = name.rfind(".")`
when `0 < i < len(name) - 1`, else the empty string (so `.env`, `noext`
and `a.` all have no suffix). -/
def pySuffix (nm : String) : String :=
  match lastIdxOf '.' nm.data with
  | none => ""
  | some i => if 0 < i ∧ i + 1 < nm.data.length then ⟨nm.data.drop i⟩ else ""

/-- `target_path.suffix`: suffix of the final path segment (`Path.name`;
empty for the filesystem root). -/
def pathSuffix (t : List String) : String :=
  match t.getLast? with
  | none => ""
  | some nm => pySuffix nm

/-! ## Directory listing helpers (`_list_files`) -/

/-- Immediate children of directory `t`: entries one segment below it,
as (name, node) pairs. -/
def childEntries (fs : FS) (t : List String) : List (String × Node) :=
  fs.filterMap (fun e =>
    if t.isPrefixOf e.1 && e.1.length == t.length + 1 then
      match e.1.getLast? with
      | some nm => some (nm, e.2)
      | none => none
    else none)

/-- Lexicographic order on char lists, modelling Python's sort order on
the path strings produced by `sorted(target_path.iterdir())`. -/
def charListLe : List Char → List Char → Bool
  | [], _ => true
  | _ :: _, [] => false
  | a :: as, b :: bs => if a < b then true else if b < a then false else charListLe as bs

def insertEntry (x : String × Node) : List (String × Node) → List (String × Node)
  | [] => [x]
  | y :: ys => if charListLe x.1.data y.1.data then x :: y :: ys else y :: insertEntry x ys

/-- Stable insertion sort by entry name (`sorted(...)`). -/
def sortEntries : List (String × Node) → List (String × Node)
  | [] => []
  | x :: xs => insertEntry x (sortEntries xs)

/-- `f"{s:4}"`: left-justify to width 4. -/
def padRight4 (s : String) : String :=
  s ++ ⟨List.replicate (4 - s.length) ' '⟩

/-- `f"{s:>10}"`: right-justify to width 10. -/
def padLeft10 (s : String) : String :=
  (⟨List.replicate (10 - s.length) ' '⟩ : String) ++ s

/-- One line of `_list_files` output:
`f"{item_type:4} {size:>10} {item.name}"`, where `item_type` is `dir` for
directories and `file` otherwise, and `size` is the byte size for regular
files and `-` otherwise. -/
def entryLine (e : String × Node) : String :=
  let ty := match e.2 with | Node.dir => "dir" | _ => "file"
  let sz := match e.2 with | Node.file c => toString c.utf8ByteSize | _ => "-"
  padRight4 ty ++ " " ++ padLeft10 sz ++ " " ++ e.1

def joinLines : List String → String
  | [] => ""
  | [s] => s
  | s :: rest => s ++ "\n" ++ joinLines rest

/-- `f"Contents of {path}:\n" + "\n".join(items)`. -/
def listingText (fs : FS) (t : List String) (p : String) : String :=
  "Contents of " ++ p ++ ":\n" ++ joinLines ((sortEntries (childEntries fs t)).map entryLine)

/-! ## The five tool handlers -/

/-- `_list_files` (lines 153-170). -/
def listFiles (sv : Server) (fs : FS) (p : String) : Except String (FS × List String) :=
  match validatePath sv.root p with
  | .error e => .error e
  | .ok t =>
    match fsGet fs t with
    | none => .ok (fs, ["Path does not exist: " ++ p])
    | some Node.dir => .ok (fs, [listingText fs t p])
    | some _ => .ok (fs, ["Path is not a directory: " ++ p])

/-- `_read_file` (lines 172-190). The `UnicodeDecodeError` branch is
unreachable in the model: file contents are Lean `String`s, which are
always valid UTF-8. -/
def readFile (sv : Server) (fs : FS) (p : String) : Except String (FS × List String) :=
  match validatePath sv.root p with
  | .error e => .error e
  | .ok t =>
    match fsGet fs t with
    | none => .ok (fs, ["File does not exist: " ++ p])
    | some (Node.file c) =>
      if c.utf8ByteSize > sv.max_file_size then
        .ok (fs, ["File too large (max " ++ toString sv.max_file_size ++ " bytes)"])
      else
        .ok (fs, [c])
    | some _ => .ok (fs, ["Path is not a file: " ++ p])

/-- `_write_file` after the extension check (lines 203-211): content size
check, parent creation, write. -/
def writeAfterExt (sv : Server) (fs : FS) (p c : String) (t : List String) :
    Except String (FS × List String) :=
  if c.utf8ByteSize > sv.max_file_size then
    .ok (fs, ["Content too large (max " ++ toString sv.max_file_size ++ " bytes)"])
  else
    match ensureDirs fs (prefixList t.dropLast) with
    | .error e => .error e
    | .ok fs1 =>
      match writeText fs1 t c with
      | .error e => .error e
      | .ok fs2 => .ok (fs2, ["File written successfully: " ++ p])

/-- `_write_file` (lines 192-211): read-only gate, path validation,
extension allow-list (a truthy — nonempty — suffix not in the list is
rejected), then `writeAfterExt`. -/
def writeFile (sv : Server) (fs : FS) (p c : String) : Except String (FS × List String) :=
  if sv.read_only then .ok (fs, ["Server is in read-only mode"])
  else
    match validatePath sv.root p with
    | .error e => .error e
    | .ok t =>
      if pathSuffix t != "" && !(sv.allowed_extensions.contains (pathSuffix t)) then
        .ok (fs, ["File extension not allowed: " ++ pathSuffix t])
      else
        writeAfterExt sv fs p c t

/-- `_create_directory` (lines 213-224). -/
def createDirectory (sv : Server) (fs : FS) (p : String) : Except String (FS × List String) :=
  if sv.read_only then .ok (fs, ["Server is in read-only mode"])
  else
    match validatePath sv.root p with
    | .error e => .error e
    | .ok t =>
      if (fsGet fs t).isSome then .ok (fs, ["Path already exists: " ++ p])
      else
        match ensureDirs fs (prefixList t) with
        | .error e => .error e
        | .ok fs1 => .ok (fs1, ["Directory created successfully: " ++ p])

/-- `_delete_file` (lines 226-247): files are unlinked; directories are
removed only when empty, the `OSError` of a non-empty `rmdir` being caught
in place; anything else reports an unknown path type. -/
def deleteFile (sv : Server) (fs : FS) (p : String) : Except String (FS × List String) :=
  if sv.read_only then .ok (fs, ["Server is in read-only mode"])
  else
    match validatePath sv.root p with
    | .error e => .error e
    | .ok t =>
      match fsGet fs t with
      | none => .ok (fs, ["Path does not exist: " ++ p])
      | some (Node.file _) => .ok (fsRemove fs t, ["File deleted successfully: " ++ p])
      | some Node.dir =>
        if dirHasChild fs t then .ok (fs, ["Directory not empty: " ++ p])
        else .ok (fsRemove fs t, ["Directory deleted successfully: " ++ p])
      | some Node.other => .ok (fs, ["Unknown path type: " ++ p])

/-! ## Dispatch (`call_tool`) -/

/-- The argument mapping of a `ToolRequest`. -/
def Args := List (String × String)

def argLookup : List (String × String) → String → Option String
  | [], _ => none
  | e :: rest, k => if e.1 = k then some e.2 else argLookup rest k

/-- `arguments[k]`: raises `KeyError(k)` when absent; Python's
`str(KeyError(k))` is the repr `'k'`, quotes included. -/
def getArg (args : Args) (k : String) : Except String String :=
  match argLookup args k with
  | some v => .ok v
  | none => .error ("\x27" ++ k ++ "\x27")

/-- The body of the `try` block of `call_tool` (lines 126-138): argument
extraction, tool lookup and handler invocation; the unknown-tool reply is
an ordinary (non-raising) result. -/
def callToolBody (sv : Server) (fs : FS) (name : String) (args : Args) :
    Except String (FS × List String) :=
  if name = "list_files" then
    match getArg args "path" with
    | .error e => .error e
    | .ok p => listFiles sv fs p
  else if name = "read_file" then
    match getArg args "path" with
    | .error e => .error e
    | .ok p => readFile sv fs p
  else if name = "write_file" then
    match getArg args "path" with
    | .error e => .error e
    | .ok p =>
      match getArg args "content" with
      | .error e => .error e
      | .ok c => writeFile sv fs p c
  else if name = "create_directory" then
    match getArg args "path" with
    | .error e => .error e
    | .ok p => createDirectory sv fs p
  else if name = "delete_file" then
    match getArg args "path" with
    | .error e => .error e
    | .ok p => deleteFile sv fs p
  else
    .ok (fs, ["Unknown tool: " ++ name])

/-- `call_tool` (lines 124-140): the `try`/`except Exception` boundary —
every fault raised inside the body becomes the single text
`f"Error: {str(e)}"`. -/
def callTool (sv : Server) (fs : FS) (name : String) (args : Args) : FS × List String :=
  match callToolBody sv fs name args with
  | .ok r => r
  | .error e => (fs, ["Error: " ++ e])

/-! ## Auxiliary predicate and concrete states used in the theorems -/

/-- A dispatch-body outcome is either a raised fault or carries exactly
one text segment. -/
def okSingleton : Except String (FS × List String) → Prop
  | .ok r => r.2.length = 1
  | .error _ => True

/-- A server over sandbox root `/sandbox` with `max_file_size = 10`,
`allowed_extensions = [".txt"]`, `read_only = false`. -/
def sv0 : Server := ⟨["sandbox"], 10, [".txt"], false⟩

/-- The same server in read-only mode. -/
def svRO : Server := ⟨["sandbox"], 10, [".txt"], true⟩

/-- A fresh sandbox: only the root directory exists. -/
def fs0 : FS := [(["sandbox"], Node.dir)]

/-- A sandbox holding a non-empty directory `d` containing `d/f.txt`. -/
def fs5 : FS :=
  [(["sandbox"], Node.dir), (["sandbox", "d"], Node.dir),
    (["sandbox", "d", "f.txt"], Node.file "x")]

/-! ## Theorems -/

/-- C1: REFUTED ON THE CODE (code bug). The spec demands that validation
never return a path outside the root under path-segment containment, but
`_validate_path` uses a raw string `startswith` test: with sandbox root
`/sandbox`, the relative path `../sandbox-evil` resolves to
`/sandbox-evil`, which passes the `startswith` check and is returned as
validated although it is neither the root nor below it at a directory
boundary. -/
theorem validate_accepts_sibling_escape :
    validatePath ["sandbox"] "../sandbox-evil" = .ok ["sandbox-evil"] ∧
      specSegmentContained ["sandbox"] ["sandbox-evil"] = false := by
  exact ⟨rfl, rfl⟩

/-- C2: CONFIRMED. Dispatch always answers with a textual result: an
unknown tool name yields the textual unknown-tool reply, and every fault
raised inside the dispatch body (policy violation, filesystem error,
validation error) is caught at the `call_tool` boundary and converted to
the textual `Error: ...` result — `callTool` is a total function into
results, so no fault propagates past it. -/
theorem callTool_converts_faults (sv : Server) (fs : FS) (name : String) (args : Args) :
    (∀ e, callToolBody sv fs name args = .error e →
        callTool sv fs name args = (fs, ["Error: " ++ e])) ∧
      (name ∉ ["list_files", "read_file", "write_file", "create_directory", "delete_file"] →
        callTool sv fs name args = (fs, ["Unknown tool: " ++ name])) := by
  constructor
  · intro e h
    unfold callTool
    rw [h]
  · intro h
    simp only [List.mem_cons, List.not_mem_nil, or_false, not_or] at h
    obtain ⟨h1, h2, h3, h4, h5⟩ := h
    unfold callTool callToolBody
    simp [h1, h2, h3, h4, h5]

/-- Witness for C2: a path-escape fault raised inside `_read_file` is
converted to a textual `Error: ...` result. -/
theorem callTool_converts_faults_witness :
    callTool sv0 fs0 "read_file" [("path", "../z")] =
      (fs0, ["Error: Path '../z' is outside the sandbox directory"]) :=
  (callTool_converts_faults sv0 fs0 "read_file" [("path", "../z")]).1
    "Path '../z' is outside the sandbox directory" rfl

/-- C3: REFUTED AS STATED (counterexample). With `read_only = true` and a
path that escapes the sandbox, `write_file` answers with the read-only
rejection, not the path-escape failure — so the read-only policy check
runs before the PathGuard check, contradicting the claim. -/
theorem readonly_checked_before_pathguard_cex :
    callTool svRO fs0 "write_file" [("path", "../etc/x"), ("content", "hi")] =
      (fs0, ["Server is in read-only mode"]) ∧
      validatePath svRO.root "../etc/x" =
        .error "Path '../etc/x' is outside the sandbox directory" := by
  exact ⟨rfl, rfl⟩

/-- C3 amended: in `_write_file`, `_create_directory` and `_delete_file`
the read-only policy check precedes the PathGuard check, so with
`read_only = true` every such call (escaping path included) returns the
read-only rejection; with `read_only = false` — and always for
`_list_files` and `_read_file` — the PathGuard check runs before the
extension and size policy checks and before any filesystem access, and an
escaping path raises the path-escape fault. -/
theorem guard_order_amended (sv : Server) (fs : FS) (p c e : String) :
    (sv.read_only = true →
        writeFile sv fs p c = .ok (fs, ["Server is in read-only mode"]) ∧
          createDirectory sv fs p = .ok (fs, ["Server is in read-only mode"]) ∧
          deleteFile sv fs p = .ok (fs, ["Server is in read-only mode"])) ∧
      (sv.read_only = false → validatePath sv.root p = .error e →
        writeFile sv fs p c = .error e ∧
          createDirectory sv fs p = .error e ∧
          deleteFile sv fs p = .error e ∧
          listFiles sv fs p = .error e ∧
          readFile sv fs p = .error e) := by
  constructor
  · intro h
    exact ⟨by simp [writeFile, h], by simp [createDirectory, h], by simp [deleteFile, h]⟩
  · intro h hv
    refine ⟨?_, ?_, ?_, ?_, ?_⟩ <;>
      simp [writeFile, createDirectory, deleteFile, listFiles, readFile, h, hv]

/-- Witness for C3 amended: with `read_only = false`, an escaping path
makes all five handlers fail with the path-escape fault. -/
theorem guard_order_amended_witness :
    writeFile sv0 fs0 "../z" "c" =
        .error "Path '../z' is outside the sandbox directory" ∧
      createDirectory sv0 fs0 "../z" =
        .error "Path '../z' is outside the sandbox directory" ∧
      deleteFile sv0 fs0 "../z" =
        .error "Path '../z' is outside the sandbox directory" ∧
      listFiles sv0 fs0 "../z" =
        .error "Path '../z' is outside the sandbox directory" ∧
      readFile sv0 fs0 "../z" =
        .error "Path '../z' is outside the sandbox directory" :=
  (guard_order_amended sv0 fs0 "../z" "c"
      "Path '../z' is outside the sandbox directory").2 rfl rfl

/-- C4: CONFIRMED. With the read-only flag set, `write_file`,
`create_directory` and `delete_file` all return the read-only rejection
with the filesystem unchanged, while `list_files` and `read_file` behave
exactly as they do with the flag cleared. -/
theorem read_only_mode_behavior (root : List String) (m : Nat) (exts : List String)
    (fs : FS) (p c : String) :
    writeFile ⟨root, m, exts, true⟩ fs p c = .ok (fs, ["Server is in read-only mode"]) ∧
      createDirectory ⟨root, m, exts, true⟩ fs p =
        .ok (fs, ["Server is in read-only mode"]) ∧
      deleteFile ⟨root, m, exts, true⟩ fs p = .ok (fs, ["Server is in read-only mode"]) ∧
      listFiles ⟨root, m, exts, true⟩ fs p = listFiles ⟨root, m, exts, false⟩ fs p ∧
      readFile ⟨root, m, exts, true⟩ fs p = readFile ⟨root, m, exts, false⟩ fs p := by
  exact ⟨rfl, rfl, rfl, rfl, rfl⟩

/-- C8: REFUTED AS STATED (counterexample). A missing required argument
does not surface as a transport-level fault: the `KeyError` is raised
inside the `try` block of `call_tool` and is converted — like every other
fault — into the textual failure result `Error: 'path'`. -/
theorem missing_arg_textual_cex :
    callTool sv0 fs0 "list_files" [] = (fs0, ["Error: 'path'"]) := by
  exact rfl

/-- C8 amended: an argument-shape mismatch (missing required argument) is
recovered at the dispatch boundary like any other fault: each of the five
tools invoked without its required arguments returns the textual result
`Error: 'path'` (respectively `Error: 'content'` for `write_file` called
with only a path), never a propagated fault. -/
theorem missing_arg_amended (sv : Server) (fs : FS) :
    callTool sv fs "list_files" [] = (fs, ["Error: 'path'"]) ∧
      callTool sv fs "read_file" [] = (fs, ["Error: 'path'"]) ∧
      callTool sv fs "write_file" [] = (fs, ["Error: 'path'"]) ∧
      callTool sv fs "write_file" [("path", "x.txt")] = (fs, ["Error: 'content'"]) ∧
      callTool sv fs "create_directory" [] = (fs, ["Error: 'path'"]) ∧
      callTool sv fs "delete_file" [] = (fs, ["Error: 'path'"]) := by
  exact ⟨rfl, rfl, rfl, rfl, rfl, rfl⟩

/-- Helper: when the target's suffix is empty or allowed, `_write_file`
continues past the extension check into the size check and the write. -/
theorem writeFile_ext_pass (sv : Server) (fs : FS) (p c : String) (t : List String)
    (hro : sv.read_only = false) (hv : validatePath sv.root p = .ok t)
    (hext : pathSuffix t = "" ∨ sv.allowed_extensions.contains (pathSuffix t) = true) :
    writeFile sv fs p c = writeAfterExt sv fs p c t := by
  have hcond :
      (pathSuffix t != "" && !(sv.allowed_extensions.contains (pathSuffix t))) = false := by
    rcases hext with h | h
    · simp [h]
    · rw [h]
      simp
  unfold writeFile
  rw [hro, hv]
  show (if (pathSuffix t != "" && !sv.allowed_extensions.contains (pathSuffix t)) = true
      then Except.ok (fs, ["File extension not allowed: " ++ pathSuffix t])
      else writeAfterExt sv fs p c t) = writeAfterExt sv fs p c t
  rw [hcond]
  simp

/-- C5: CONFIRMED. Given a validated existing target, `_delete_file`
removes a regular file; it removes a directory only when it has no
descendant entry, a non-empty directory producing the "not empty" result
with the filesystem (hence the directory) unchanged; any other object
kind produces the "unknown path type" result. -/
theorem delete_semantics (sv : Server) (fs : FS) (p : String) (t : List String)
    (hro : sv.read_only = false) (hv : validatePath sv.root p = .ok t) :
    (∀ c, fsGet fs t = some (Node.file c) →
        deleteFile sv fs p = .ok (fsRemove fs t, ["File deleted successfully: " ++ p])) ∧
      (fsGet fs t = some Node.dir → dirHasChild fs t = true →
        deleteFile sv fs p = .ok (fs, ["Directory not empty: " ++ p]) ∧
          fsGet fs t = some Node.dir) ∧
      (fsGet fs t = some Node.dir → dirHasChild fs t = false →
        deleteFile sv fs p = .ok (fsRemove fs t, ["Directory deleted successfully: " ++ p])) ∧
      (fsGet fs t = some Node.other →
        deleteFile sv fs p = .ok (fs, ["Unknown path type: " ++ p])) := by
  refine ⟨fun c hg => ?_, fun hg hne => ⟨?_, hg⟩, fun hg hne => ?_, fun hg => ?_⟩
  · simp [deleteFile, hro, hv, hg]
  · simp [deleteFile, hro, hv, hg, hne]
  · simp [deleteFile, hro, hv, hg, hne]
  · simp [deleteFile, hro, hv, hg]

/-- Witness for C5: deleting the non-empty directory `d` of `fs5` yields
the "not empty" result and `d` still exists. -/
theorem delete_semantics_witness :
    deleteFile sv0 fs5 "d" = .ok (fs5, ["Directory not empty: d"]) ∧
      fsGet fs5 ["sandbox", "d"] = some Node.dir :=
  (delete_semantics sv0 fs5 "d" ["sandbox", "d"] rfl rfl).2.1 rfl rfl

/-- C6: CONFIRMED. For a validated target passing the extension check,
`_write_file` rejects with the size-limit result — leaving the filesystem
untouched, no file or parent directory created — exactly when the UTF-8
byte length of the content strictly exceeds `max_file_size`; content of
byte length at most the maximum (boundary included) is written, the
target afterwards holding that content. -/
theorem write_size_limit (sv : Server) (fs : FS) (p c : String) (t : List String)
    (hro : sv.read_only = false) (hv : validatePath sv.root p = .ok t)
    (hext : pathSuffix t = "" ∨ sv.allowed_extensions.contains (pathSuffix t) = true) :
    (c.utf8ByteSize > sv.max_file_size →
        writeFile sv fs p c =
          .ok (fs, ["Content too large (max " ++ toString sv.max_file_size ++ " bytes)"])) ∧
      (∀ fs1, c.utf8ByteSize ≤ sv.max_file_size →
        ensureDirs fs (prefixList t.dropLast) = .ok fs1 →
        fsGet fs1 t ≠ some Node.dir →
        writeFile sv fs p c =
          .ok ((t, Node.file c) :: fsRemove fs1 t, ["File written successfully: " ++ p]) ∧
          fsGet ((t, Node.file c) :: fsRemove fs1 t) t = some (Node.file c)) := by
  have hpass := writeFile_ext_pass sv fs p c t hro hv hext
  constructor
  · intro hgt
    rw [hpass]
    simp [writeAfterExt, hgt]
  · intro fs1 hle hens hnd
    refine ⟨?_, by simp [fsGet]⟩
    rw [hpass]
    unfold writeAfterExt writeText
    rw [if_neg (by omega), hens]
    rcases hg : fsGet fs1 t with _ | n
    · simp [hg]
    · cases n
      · simp [hg]
      · exact absurd hg hnd
      · simp [hg]

/-- Witness for C6: on a fresh sandbox with `max_file_size = 10`, writing
exactly 10 bytes to `x.txt` succeeds and the file holds the content. -/
theorem write_size_limit_witness :
    writeFile sv0 fs0 "x.txt" "1234567890" =
      .ok ((["sandbox", "x.txt"], Node.file "1234567890") ::
            fsRemove fs0 ["sandbox", "x.txt"],
          ["File written successfully: x.txt"]) ∧
      fsGet ((["sandbox", "x.txt"], Node.file "1234567890") ::
            fsRemove fs0 ["sandbox", "x.txt"]) ["sandbox", "x.txt"] =
        some (Node.file "1234567890") :=
  (write_size_limit sv0 fs0 "x.txt" "1234567890" ["sandbox", "x.txt"] rfl rfl
      (Or.inr rfl)).2 fs0 (by decide) rfl (by decide)

/-- C7: CONFIRMED. For a validated target, `_write_file` rejects with the
descriptive extension result — writing nothing — when the target has a
nonempty suffix outside `allowed_extensions`; a target with an allowed
suffix or with no suffix at all passes this check unconditionally,
continuing into the rest of the operation. -/
theorem write_extension_policy (sv : Server) (fs : FS) (p c : String) (t : List String)
    (hro : sv.read_only = false) (hv : validatePath sv.root p = .ok t) :
    (pathSuffix t ≠ "" → sv.allowed_extensions.contains (pathSuffix t) = false →
        writeFile sv fs p c = .ok (fs, ["File extension not allowed: " ++ pathSuffix t])) ∧
      (pathSuffix t = "" ∨ sv.allowed_extensions.contains (pathSuffix t) = true →
        writeFile sv fs p c = writeAfterExt sv fs p c t) := by
  constructor
  · intro hne hmem
    unfold writeFile
    rw [hro, hv]
    show (if (pathSuffix t != "" && !sv.allowed_extensions.contains (pathSuffix t)) = true
        then Except.ok (fs, ["File extension not allowed: " ++ pathSuffix t])
        else writeAfterExt sv fs p c t) =
      Except.ok (fs, ["File extension not allowed: " ++ pathSuffix t])
    rw [hmem]
    simp [hne]
  · exact writeFile_ext_pass sv fs p c t hro hv

/-- Witness for C7: with `allowed_extensions = [".txt"]`, writing `a.bin`
is rejected with the descriptive extension result and no file is
written. -/
theorem write_extension_policy_witness :
    writeFile sv0 fs0 "a.bin" "data" =
      .ok (fs0, ["File extension not allowed: .bin"]) :=
  (write_extension_policy sv0 fs0 "a.bin" "data" ["sandbox", "a.bin"] rfl rfl).1
    (by decide) rfl

/-- Helper: a character absent from a list has no last index in it. -/
theorem lastIdxOf_eq_none (ch : Char) (l : List Char) (h : ch ∉ l) :
    lastIdxOf ch l = none := by
  induction l with
  | nil => rfl
  | cons a as ih =>
    have h1 : ch ∉ as := fun hm => h (List.mem_cons_of_mem _ hm)
    have h2 : ¬a = ch := fun he => h (he ▸ List.mem_cons_self a as)
    simp [lastIdxOf, ih h1, h2]

/-- C10: CONFIRMED. A file name that begins with a dot and contains no
further dot (such as `.env`) has an empty pathlib suffix, so
`_write_file`'s extension allow-list check does not fire on it: the write
proceeds past the check whatever `allowed_extensions` holds. -/
theorem dotfile_bypasses_extension_check (sv : Server) (fs : FS) (p c : String)
    (t : List String) (nm : String) (rest : List Char)
    (hro : sv.read_only = false) (hv : validatePath sv.root p = .ok t)
    (hlast : t.getLast? = some nm) (hnm : nm.data = '.' :: rest) (hnd : '.' ∉ rest) :
    pathSuffix t = "" ∧ writeFile sv fs p c = writeAfterExt sv fs p c t := by
  have hsfx : pathSuffix t = "" := by
    unfold pathSuffix
    rw [hlast]
    show pySuffix nm = ""
    unfold pySuffix
    rw [hnm]
    simp [lastIdxOf, lastIdxOf_eq_none '.' rest hnd]
  exact ⟨hsfx, writeFile_ext_pass sv fs p c t hro hv (Or.inl hsfx)⟩

/-- Witness for C10: with `allowed_extensions = [".txt"]`, a write to
`.env` bypasses the extension check. -/
theorem dotfile_bypasses_extension_check_witness :
    pathSuffix ["sandbox", ".env"] = "" ∧
      writeFile sv0 fs0 ".env" "data" = writeAfterExt sv0 fs0 ".env" "data" ["sandbox", ".env"] :=
  dotfile_bypasses_extension_check sv0 fs0 ".env" "data" ["sandbox", ".env"] ".env"
    ['e', 'n', 'v'] rfl rfl rfl rfl (by decide)

/-- Helper: `_list_files` answers with exactly one text segment. -/
theorem listFiles_singleton (sv : Server) (fs : FS) (p : String) :
    okSingleton (listFiles sv fs p) := by
  unfold listFiles
  repeat' split
  all_goals trivial

/-- Helper: `_read_file` answers with exactly one text segment. -/
theorem readFile_singleton (sv : Server) (fs : FS) (p : String) :
    okSingleton (readFile sv fs p) := by
  unfold readFile
  repeat' split
  all_goals trivial

/-- Helper: the post-extension part of `_write_file` answers with exactly
one text segment when it does not raise. -/
theorem writeAfterExt_singleton (sv : Server) (fs : FS) (p c : String) (t : List String) :
    okSingleton (writeAfterExt sv fs p c t) := by
  unfold writeAfterExt writeText
  repeat' split
  all_goals trivial

/-- Helper: `_write_file` answers with exactly one text segment when it
does not raise. -/
theorem writeFile_singleton (sv : Server) (fs : FS) (p c : String) :
    okSingleton (writeFile sv fs p c) := by
  unfold writeFile
  repeat' split
  all_goals first
    | trivial
    | apply writeAfterExt_singleton

/-- Helper: `_create_directory` answers with exactly one text segment when
it does not raise. -/
theorem createDirectory_singleton (sv : Server) (fs : FS) (p : String) :
    okSingleton (createDirectory sv fs p) := by
  unfold createDirectory
  repeat' split
  all_goals trivial

/-- Helper: `_delete_file` answers with exactly one text segment. -/
theorem deleteFile_singleton (sv : Server) (fs : FS) (p : String) :
    okSingleton (deleteFile sv fs p) := by
  unfold deleteFile
  repeat' split
  all_goals trivial

/-- Helper: the dispatch body answers with exactly one text segment
whenever it does not raise. -/
theorem callToolBody_singleton (sv : Server) (fs : FS) (name : String) (args : Args) :
    okSingleton (callToolBody sv fs name args) := by
  unfold callToolBody
  repeat' split
  all_goals first
    | trivial
    | apply listFiles_singleton
    | apply readFile_singleton
    | apply writeFile_singleton
    | apply createDirectory_singleton
    | apply deleteFile_singleton

/-- C9: CONFIRMED. Every invocation of every tool through `call_tool` —
success, policy rejection, unknown tool or converted fault — returns a
result with exactly one text segment. -/
theorem result_single_segment (sv : Server) (fs : FS) (name : String) (args : Args) :
    (callTool sv fs name args).2.length = 1 := by
  have hs := callToolBody_singleton sv fs name args
  unfold callTool
  rcases hb : callToolBody sv fs name args with e | r
  · exact rfl
  · rw [hb] at hs
    exact hs
